import Mathlib

/-!
Verification of the pour-control state machine of `brita-filler.ino`.

The embedding below is a shallow model of the Arduino sketch: the mutable
`state_t` struct becomes an immutable `State` value, the `pour_t*` pointer
(NULL or pointing at the single global `pour_t`) becomes `Option Pour`, and
each C function that mutates the state becomes a Lean function from the old
state (plus the values the C code reads from hardware: `is_enabled()`,
`is_manual()`, `millis()`, `analogRead`) to the new state.

Timestamps (`unsigned long`) are modelled as `Nat`.  Both duration checks in
the C code have the shape `(now < ref) || (now - ref) >= LIMIT` with unsigned
subtraction; whenever the subtraction is evaluated with the first disjunct
false we have `now >= ref`, so the wrapped unsigned subtraction coincides with
truncated `Nat` subtraction and the `Nat` model of the disjunction is exact.
The `unsigned char count` field is modelled as `Nat` with the increment taken
mod 256 to reflect the 8-bit register.
-/

namespace Brita

/-- `const int UPDATE_FREQ_MS = 1000`. -/
def UPDATE_FREQ_MS : Nat := 1000

/-- `const int THRESHOLD = 900` (raw reading at/below this means "dry"). -/
def THRESHOLD : Int := 900

/-- `const int CONSECUTIVE = 5` (debounce depth). -/
def CONSECUTIVE : Nat := 5

/-- `const int LOCKOUT_TIME_MS = 30000`. -/
def LOCKOUT_TIME_MS : Nat := 30000

/-- `const int HYSTERESIS_TIME_MS = 10000`. -/
def HYSTERESIS_TIME_MS : Nat := 10000

/-- The C struct `pour_t`: the state of the currently active pour. -/
structure Pour where
  /-- `bool manual` — whether this pour was manually started / is held manual. -/
  manual : Bool
  /-- `unsigned long start` — reference timestamp for hysteresis. -/
  start : Nat
  /-- `unsigned long lockout_start` — reference timestamp for lockout. -/
  lockout_start : Nat
  deriving DecidableEq

/-- The C struct `state_t`: top-level application state.  The C field is a
`pour_t*` that is either `NULL` or points at the unique global `pour_t`;
it is modelled as `Option Pour`. -/
structure State where
  current_pour : Option Pour
  lockout : Bool
  count : Nat
  last_raw_reading : Int
  deriving DecidableEq

/-- The C function `update_auto_pour(state_t*)`: record the raw reading and
update the consecutive-dry-readings counter.  `current_sense` is the value the
C code obtains from `raw_sense()` (i.e. `analogRead(SENSE)`). -/
def update_auto_pour (state : State) (current_sense : Int) : State :=
  let state1 : State := { state with last_raw_reading := current_sense }
  if current_sense ≤ THRESHOLD ∧ state1.count < CONSECUTIVE then
    { state1 with count := (state1.count + 1) % 256 }
  else if current_sense > THRESHOLD then
    { state1 with count := 0 }
  else
    state1

/-- The C function `update_state(state_t*)`: the single evaluation entry point
of the pour state machine.  `enabled`, `manual` and `current_time` are the
values the C code obtains from `is_enabled()`, `is_manual()` and `millis()`. -/
def update_state (state : State) (enabled manual : Bool) (current_time : Nat) :
    State :=
  if !enabled || state.lockout then
    -- disabled or locked out: stop pouring, reset counts;
    -- disabling additionally escapes lockout
    let state1 : State := if !enabled then { state with lockout := false } else state
    { state1 with count := 0, current_pour := none }
  else
    match state.current_pour with
    | some pour =>
        if current_time < pour.lockout_start ∨
            current_time - pour.lockout_start ≥ LOCKOUT_TIME_MS then
          -- pouring longer than the lockout time: force-close and lock out
          { state with lockout := true, current_pour := none, count := 0 }
        else if manual then
          -- manual button held: mark manual, reset count, keep pouring
          { state with current_pour := some { pour with manual := true }, count := 0 }
        else if state.count ≥ CONSECUTIVE then
          -- enough consecutive dry reads: go auto, refresh hysteresis start
          { state with
              current_pour := some { pour with manual := false, start := current_time } }
        else if pour.manual then
          -- manual pour and button released: stop
          { state with current_pour := none }
        else if current_time < pour.start ∨
            current_time - pour.start ≥ HYSTERESIS_TIME_MS then
          -- auto pour, water detected, hysteresis time met: stop
          { state with current_pour := none }
        else
          -- auto pour, water detected, within hysteresis window: no change
          state
    | none =>
        if manual then
          -- manual button held: start a manual pour, reset count
          { state with
              current_pour :=
                some { manual := true, start := current_time,
                       lockout_start := current_time },
              count := 0 }
        else if state.count ≥ CONSECUTIVE then
          -- enough consecutive dry reads: start an auto pour
          { state with
              current_pour :=
                some { manual := false, start := current_time,
                       lockout_start := current_time } }
        else
          state

/-- The C function `should_pour(const state_t*)`: the valve command. -/
def should_pour (state : State) : Bool :=
  state.current_pour.isSome

/-- The C function `refresh()`: one evaluation of the state machine followed by
the valve write `digitalWrite(CTRL, should_pour(...) ? HIGH : LOW)`.  Returns
the new state together with the valve command. -/
def refresh (state : State) (enabled manual : Bool) (current_time : Nat) :
    State × Bool :=
  let state1 := update_state state enabled manual current_time
  (state1, should_pour state1)

/-- One iteration of the C `loop()` body as far as control state is concerned:
`update_auto_pour` on the freshly sampled reading, then `refresh`. -/
def tick (state : State) (reading : Int) (enabled manual : Bool)
    (current_time : Nat) : State × Bool :=
  refresh (update_auto_pour state reading) enabled manual current_time

/-- C5: Debounce saturation and reset: for every starting counter value in
[0, CONSECUTIVE] and every raw reading, `update_auto_pour` increments the
counter if the reading is ≤ THRESHOLD and the counter is below CONSECUTIVE,
resets it to 0 if the reading is > THRESHOLD, and leaves it unchanged if the
reading is ≤ THRESHOLD and the counter equals CONSECUTIVE; hence the counter
never exceeds CONSECUTIVE. -/
theorem debounce_saturation (s : State) (r : Int) (hc : s.count ≤ CONSECUTIVE) :
    ((r ≤ THRESHOLD ∧ s.count < CONSECUTIVE) →
        (update_auto_pour s r).count = s.count + 1) ∧
    (r > THRESHOLD → (update_auto_pour s r).count = 0) ∧
    ((r ≤ THRESHOLD ∧ s.count = CONSECUTIVE) →
        (update_auto_pour s r).count = s.count) ∧
    (update_auto_pour s r).count ≤ CONSECUTIVE := by
  refine ⟨?_, ?_, ?_, ?_⟩ <;>
    · simp only [update_auto_pour, CONSECUTIVE, THRESHOLD] at *
      split_ifs <;> simp_all <;> omega

/-- Witness for C5: a counter of 3 with a dry reading of 800 increments to 4. -/
theorem debounce_saturation_witness :
    (update_auto_pour ⟨none, false, 3, 0⟩ 800).count = 3 + 1 :=
  (debounce_saturation ⟨none, false, 3, 0⟩ 800 (by decide)).1 ⟨by decide, by decide⟩

/-- C2: Lockout recovery: from any state with `lockout = true`, every
evaluation with `enabled = true` leaves lockout true, leaves no active pour,
and commands the valve closed (for all manual inputs and all counter/sensor
state); and every evaluation with `enabled = false` clears lockout — disabling
is the only transition out of lockout. -/
theorem lockout_recovery (s : State) (manual : Bool) (current_time : Nat)
    (hl : s.lockout = true) :
    ((update_state s true manual current_time).lockout = true ∧
      (update_state s true manual current_time).current_pour = none ∧
      should_pour (update_state s true manual current_time) = false) ∧
    (update_state s false manual current_time).lockout = false := by
  simp [update_state, should_pour, hl]

/-- Witness for C2: concrete locked-out state, enabled evaluation keeps
lockout, disabled evaluation clears it. -/
theorem lockout_recovery_witness :
    (update_state ⟨none, true, 4, 500⟩ true true 7).lockout = true ∧
      (update_state ⟨none, true, 4, 500⟩ false true 7).lockout = false := by
  have h := lockout_recovery ⟨none, true, 4, 500⟩ true 7 rfl
  exact ⟨h.1.1, h.2⟩

/-- C4: State invariants preserved by every evaluation: after any call to
`update_state`, `lockout = true` implies `current_pour` is absent, and an
active `current_pour` implies `lockout = false` and that the enabled input was
true at that evaluation. -/
theorem state_invariants (s : State) (enabled manual : Bool)
    (current_time : Nat) :
    ((update_state s enabled manual current_time).lockout = true →
      (update_state s enabled manual current_time).current_pour = none) ∧
    (∀ p, (update_state s enabled manual current_time).current_pour = some p →
      (update_state s enabled manual current_time).lockout = false ∧
        enabled = true) := by
  rcases s with ⟨cp, lk, ct, lr⟩
  cases enabled <;> cases lk <;> rcases cp with _ | p <;>
    simp [update_state] <;> split_ifs <;> simp_all

/-- Witness for C4: a timed-out pour ends locked out with no pour, and a fresh
manual pour implies lockout is off. -/
theorem state_invariants_witness :
    (update_state ⟨some ⟨false, 0, 0⟩, false, 0, 0⟩ true false 40000).current_pour
        = none ∧
      (update_state ⟨none, false, 0, 0⟩ true true 5).lockout = false := by
  have h1 := (state_invariants ⟨some ⟨false, 0, 0⟩, false, 0, 0⟩ true false 40000).1
  have h2 := (state_invariants ⟨none, false, 0, 0⟩ true true 5).2
  exact ⟨h1 (by decide), (h2 ⟨true, 5, 5⟩ (by decide)).1⟩

/-- C9: `lockout_start` immutability: whenever a pour is active on entry to
`update_state` and a pour is still active on exit (any manual/auto transition
within the open interval, including `start` refreshes and manual marking), the
pour's `lockout_start` field is unchanged. -/
theorem lockout_start_immutable (s : State) (enabled manual : Bool)
    (current_time : Nat) (p q : Pour)
    (hp : s.current_pour = some p)
    (hq : (update_state s enabled manual current_time).current_pour = some q) :
    q.lockout_start = p.lockout_start := by
  rcases s with ⟨cp, lk, ct, lr⟩
  simp only [State.current_pour] at hp
  subst hp
  cases enabled <;> cases lk <;>
    simp only [update_state, Bool.not_true, Bool.not_false, Bool.false_or,
      Bool.true_or, Bool.or_true, Bool.or_false, if_true, if_false] at hq <;>
    · first
      | (split_ifs at hq <;> simp_all <;> (subst hq; rfl))
      | simp_all

/-- Witness for C9: marking an active pour manual keeps its
`lockout_start`. -/
theorem lockout_start_immutable_witness :
    (⟨true, 100, 100⟩ : Pour).lockout_start = (⟨false, 100, 100⟩ : Pour).lockout_start := by
  have h := lockout_start_immutable ⟨some ⟨false, 100, 100⟩, false, 0, 0⟩ true true
    200 ⟨false, 100, 100⟩ ⟨true, 100, 100⟩ rfl (by decide)
  exact h

/-- C1 counterexample: a state with an active pour whose lockout interval has
elapsed (`30000 - lockout_start ≥ LOCKOUT_TIME_MS`), evaluated with
`enabled = false`, does NOT set `lockout` to true — the disabled guard clears
lockout instead. -/
theorem no_flood_disabled_counterexample :
    (⟨some ⟨false, 0, 0⟩, false, 0, 0⟩ : State).current_pour = some ⟨false, 0, 0⟩ ∧
      30000 - (⟨false, 0, 0⟩ : Pour).lockout_start ≥ LOCKOUT_TIME_MS ∧
      (update_state ⟨some ⟨false, 0, 0⟩, false, 0, 0⟩ false false 30000).lockout
        = false := by
  decide

/-- C1 (amended): for every state with an active pour whose lockout interval
has elapsed (`current_time < lockout_start`, the wraparound case, or
`current_time - lockout_start ≥ LOCKOUT_TIME_MS`), `update_state` clears the
pour, resets the debounce counter to 0 and commands the valve closed for every
input, and sets `lockout` to true provided the enabled input is true (when
disabled, lockout is cleared instead); consequently, across any sequence of
evaluations, no pour remains open once `LOCKOUT_TIME_MS` has elapsed since its
`lockout_start`: every evaluation that leaves a pour active leaves
`lockout_start ≤ current_time` and
`current_time - lockout_start < LOCKOUT_TIME_MS`. -/
theorem no_flood :
    (∀ (s : State) (p : Pour) (enabled manual : Bool) (current_time : Nat),
        s.current_pour = some p →
        (current_time < p.lockout_start ∨
          current_time - p.lockout_start ≥ LOCKOUT_TIME_MS) →
        (update_state s enabled manual current_time).current_pour = none ∧
          (update_state s enabled manual current_time).count = 0 ∧
          should_pour (update_state s enabled manual current_time) = false ∧
          (enabled = true →
            (update_state s enabled manual current_time).lockout = true)) ∧
    (∀ (s : State) (enabled manual : Bool) (current_time : Nat) (p : Pour),
        (update_state s enabled manual current_time).current_pour = some p →
        p.lockout_start ≤ current_time ∧
          current_time - p.lockout_start < LOCKOUT_TIME_MS) := by
  constructor
  · intro s p enabled manual current_time hp hto
    rcases s with ⟨cp, lk, ct, lr⟩
    simp only [State.current_pour] at hp
    subst hp
    cases enabled <;> cases lk <;>
      simp [update_state, should_pour] <;> split_ifs <;> simp_all <;> omega
  · intro s enabled manual current_time p hp
    rcases s with ⟨cp, lk, ct, lr⟩
    cases enabled <;> cases lk <;> rcases cp with _ | q <;>
      simp only [update_state, Bool.not_true, Bool.not_false, Bool.false_or,
        Bool.true_or, Bool.or_true, Bool.or_false, if_true, if_false] at hp <;>
      first
        | (split_ifs at hp with h1 h2 h3 h4 h5 <;> simp_all <;>
            (try subst hp) <;>
            simp_all [LOCKOUT_TIME_MS, CONSECUTIVE, HYSTERESIS_TIME_MS] <;> omega)
        | simp_all

/-- Witness for C1: a pour started at time 0 evaluated at time 30000 with the
system enabled is cleared and locks the system out. -/
theorem no_flood_witness :
    (update_state ⟨some ⟨true, 0, 0⟩, false, 2, 0⟩ true true 30000).lockout
        = true ∧
      (update_state ⟨some ⟨true, 0, 0⟩, false, 2, 0⟩ true true 30000).current_pour
        = none := by
  have h := no_flood.1 ⟨some ⟨true, 0, 0⟩, false, 2, 0⟩ ⟨true, 0, 0⟩ true true 30000
    rfl (Or.inr (by decide))
  exact ⟨h.2.2.2 rfl, h.1⟩

/-- C3 counterexample: an evaluation that stops an active manual pour because
the button was released (no lockout, no timeout) leaves the debounce counter
at its old value 3 instead of resetting it to 0. -/
theorem debounce_reset_counterexample :
    (⟨some ⟨true, 1000, 1000⟩, false, 3, 0⟩ : State).current_pour
        = some ⟨true, 1000, 1000⟩ ∧
      (update_state ⟨some ⟨true, 1000, 1000⟩, false, 3, 0⟩ true false
          2000).current_pour = none ∧
      (update_state ⟨some ⟨true, 1000, 1000⟩, false, 3, 0⟩ true false 2000).count
        = 3 := by
  decide

/-- C3 (amended): when an evaluation of `update_state` transitions from an
active pour to no pour, the debounce counter is reset to 0 if the stop is due
to disabling, an existing lockout, or the lockout timeout; if the stop happens
on the enabled, non-locked-out, non-timed-out path (manual-button release or
hysteresis expiry), the counter instead keeps its previous value, which is
necessarily below CONSECUTIVE. -/
theorem debounce_reset_on_stop (s : State) (p : Pour) (enabled manual : Bool)
    (current_time : Nat)
    (hp : s.current_pour = some p)
    (hstop : (update_state s enabled manual current_time).current_pour = none) :
    ((enabled = false ∨ s.lockout = true ∨ current_time < p.lockout_start ∨
        current_time - p.lockout_start ≥ LOCKOUT_TIME_MS) →
      (update_state s enabled manual current_time).count = 0) ∧
    ((enabled = true ∧ s.lockout = false ∧ p.lockout_start ≤ current_time ∧
        current_time - p.lockout_start < LOCKOUT_TIME_MS) →
      (update_state s enabled manual current_time).count = s.count ∧
        s.count < CONSECUTIVE) := by
  rcases s with ⟨cp, lk, ct, lr⟩
  simp only [State.current_pour] at hp
  subst hp
  cases enabled <;> cases lk <;>
    simp [update_state] at hstop ⊢ <;> split_ifs <;> simp_all <;> omega

/-- Witness for C3: the manual-release stop at count 3 keeps the counter at 3,
which is below CONSECUTIVE. -/
theorem debounce_reset_on_stop_witness :
    (update_state ⟨some ⟨true, 1000, 1000⟩, false, 3, 0⟩ true false 2000).count
        = 3 ∧
      3 < CONSECUTIVE := by
  have h := debounce_reset_on_stop ⟨some ⟨true, 1000, 1000⟩, false, 3, 0⟩
    ⟨true, 1000, 1000⟩ true false 2000 rfl (by decide)
  exact ⟨(h.2 ⟨rfl, rfl, by decide, by decide⟩).1, (h.2 ⟨rfl, rfl, by decide, by decide⟩).2⟩

/-- Helper: a wet reading (> THRESHOLD) resets the counter and records the
reading. -/
theorem update_auto_pour_wet (s : State) (r : Int) (h : THRESHOLD < r) :
    update_auto_pour s r = { s with count := 0, last_raw_reading := r } := by
  have h1 : ¬ (r ≤ THRESHOLD ∧ s.count < CONSECUTIVE) := by
    intro hc
    exact absurd h (not_lt.mpr hc.1)
  simp [update_auto_pour, h1, h]

/-- C6 counterexample: an active auto pour whose readings turn wet (> 900) at
T = 5000 is closed by the evaluation at time 14000, strictly before
T + HYSTERESIS_TIME_MS = 15000, with no lockout or manual event intervening:
the code measures the window from the pour's `start` field, which was last
refreshed at the dry evaluation at time 4000, not from T. -/
theorem hysteresis_overshoot_counterexample :
    (tick (tick ⟨some ⟨false, 3000, 0⟩, false, 5, 800⟩ 800 true false 4000).1
        901 true false 5000).2 = true ∧
      14000 < 5000 + HYSTERESIS_TIME_MS ∧
      (tick (tick (tick ⟨some ⟨false, 3000, 0⟩, false, 5, 800⟩ 800 true false
          4000).1 901 true false 5000).1 901 true false 14000).2 = false := by
  decide

/-- C6 (amended): for an active auto pour evaluated on a wet reading
(> THRESHOLD) with no lockout or manual event intervening, the hysteresis
window is measured from the pour's `start` field (the hysteresis reference,
last refreshed at the most recent evaluation that saw the dry condition), not
from the first wet reading time: every evaluation strictly before
`start + HYSTERESIS_TIME_MS` keeps the valve open with the pour unchanged, and
every evaluation at or after that point closes the valve and clears the
pour. -/
theorem hysteresis_window (s : State) (p : Pour) (r : Int) (current_time : Nat)
    (hp : s.current_pour = some p) (hauto : p.manual = false)
    (hl : s.lockout = false) (hwet : r > THRESHOLD)
    (hls : p.lockout_start ≤ current_time)
    (hlt : current_time - p.lockout_start < LOCKOUT_TIME_MS)
    (hhs : p.start ≤ current_time) :
    (current_time - p.start < HYSTERESIS_TIME_MS →
      (tick s r true false current_time).2 = true ∧
        (tick s r true false current_time).1.current_pour = some p) ∧
    (current_time - p.start ≥ HYSTERESIS_TIME_MS →
      (tick s r true false current_time).2 = false ∧
        (tick s r true false current_time).1.current_pour = none) := by
  rcases s with ⟨cp, lk, ct, lr⟩
  simp only [State.current_pour] at hp
  subst hp
  simp only [State.lockout] at hl
  subst hl
  have hstate : update_auto_pour ⟨some p, false, ct, lr⟩ r = ⟨some p, false, 0, r⟩ :=
    update_auto_pour_wet _ _ hwet
  have hto : ¬ (current_time < p.lockout_start ∨
      current_time - p.lockout_start ≥ LOCKOUT_TIME_MS) := by
    push_neg
    exact ⟨hls, hlt⟩
  constructor
  · intro hW
    have hcond : ¬ (current_time < p.start ∨
        current_time - p.start ≥ HYSTERESIS_TIME_MS) := by
      push_neg
      exact ⟨hhs, hW⟩
    simp only [tick, refresh, hstate]
    simp [update_state, should_pour, hauto, hto, hcond, CONSECUTIVE]
  · intro hW
    have hcond : current_time < p.start ∨
        current_time - p.start ≥ HYSTERESIS_TIME_MS := Or.inr hW
    simp only [tick, refresh, hstate]
    simp [update_state, should_pour, hauto, hto, hcond, CONSECUTIVE]

/-- Witness for C6: at 9999 ms past `start` the valve stays open on a wet
reading; at 10000 ms it closes. -/
theorem hysteresis_window_witness :
    (tick ⟨some ⟨false, 4000, 0⟩, false, 0, 901⟩ 901 true false 13999).2 = true ∧
      (tick ⟨some ⟨false, 4000, 0⟩, false, 0, 901⟩ 901 true false 14000).2
        = false := by
  have h1 := hysteresis_window ⟨some ⟨false, 4000, 0⟩, false, 0, 901⟩
    ⟨false, 4000, 0⟩ 901 13999 rfl rfl rfl (by decide) (by decide) (by decide)
    (by decide)
  have h2 := hysteresis_window ⟨some ⟨false, 4000, 0⟩, false, 0, 901⟩
    ⟨false, 4000, 0⟩ 901 14000 rfl rfl rfl (by decide) (by decide) (by decide)
    (by decide)
  exact ⟨(h1.1 (by decide)).1, (h2.2 (by decide)).1⟩

/-- C7: Manual priority: for every state with enabled true, lockout false, and
no lockout-timeout condition on the active pour (if any), an evaluation with
the manual input held commands the valve open — creating a pour with
`manual = true` and `start = lockout_start = current_time` if none was active,
or marking the active pour manual without touching its timestamps — and resets
the debounce counter to 0, for every value of the counter and of the sensor
state. -/
theorem manual_priority (s : State) (current_time : Nat)
    (hl : s.lockout = false)
    (hto : ∀ p, s.current_pour = some p →
      p.lockout_start ≤ current_time ∧
        current_time - p.lockout_start < LOCKOUT_TIME_MS) :
    should_pour (update_state s true true current_time) = true ∧
    (update_state s true true current_time).count = 0 ∧
    (s.current_pour = none →
      (update_state s true true current_time).current_pour
        = some ⟨true, current_time, current_time⟩) ∧
    (∀ p, s.current_pour = some p →
      (update_state s true true current_time).current_pour
        = some ⟨true, p.start, p.lockout_start⟩) := by
  rcases s with ⟨cp, lk, ct, lr⟩
  simp only [State.lockout] at hl
  subst hl
  rcases cp with _ | p
  · simp [update_state, should_pour]
  · have h := hto p rfl
    simp [update_state, should_pour] <;> split_ifs <;> simp_all <;> omega

/-- Witness for C7: with an active auto pour, count 5 and a held button, the
pour is marked manual and the counter resets. -/
theorem manual_priority_witness :
    should_pour (update_state ⟨some ⟨false, 200, 100⟩, false, 5, 0⟩ true true
        600) = true ∧
      (update_state ⟨some ⟨false, 200, 100⟩, false, 5, 0⟩ true true 600).count
        = 0 ∧
      (update_state ⟨some ⟨false, 200, 100⟩, false, 5, 0⟩ true true
          600).current_pour = some ⟨true, 200, 100⟩ := by
  have h := manual_priority ⟨some ⟨false, 200, 100⟩, false, 5, 0⟩ 600 rfl
    (by intro p hp; cases hp; exact ⟨by decide, by decide⟩)
  exact ⟨h.1, h.2.1, h.2.2.2 ⟨false, 200, 100⟩ rfl⟩

/-- C8: Clock-wraparound fail-safe: with an active pour on the enabled,
non-locked-out path, an evaluation with `current_time < lockout_start` clears
the pour and sets lockout (for any manual input), and an evaluation of an auto
pour in the wet branch (manual released, counter below CONSECUTIVE) with
`current_time < start` clears the pour — wraparound is treated as "interval
expired", never as "interval never elapses". -/
theorem wraparound_fail_safe (s : State) (p : Pour) (current_time : Nat)
    (hp : s.current_pour = some p) (hl : s.lockout = false) :
    (∀ manual, current_time < p.lockout_start →
      (update_state s true manual current_time).current_pour = none ∧
        (update_state s true manual current_time).lockout = true) ∧
    (p.manual = false → p.lockout_start ≤ current_time →
      current_time - p.lockout_start < LOCKOUT_TIME_MS →
      s.count < CONSECUTIVE → current_time < p.start →
      (update_state s true false current_time).current_pour = none) := by
  rcases s with ⟨cp, lk, ct, lr⟩
  simp only [State.current_pour] at hp
  subst hp
  simp only [State.lockout] at hl
  subst hl
  constructor
  · intro manual hw
    simp [update_state, hw]
  · intro hauto h1 h2 h3 hw
    simp [update_state] <;> split_ifs <;> simp_all <;> omega

/-- Witness for C8: a pour with `lockout_start = 5000` evaluated at time 10
(the clock wrapped) locks out, and an auto pour with `start = 5000` evaluated
at time 4000 (within the lockout window of `lockout_start = 100`) closes. -/
theorem wraparound_fail_safe_witness :
    (update_state ⟨some ⟨false, 5000, 5000⟩, false, 0, 0⟩ true false 10).lockout
        = true ∧
      (update_state ⟨some ⟨false, 5000, 100⟩, false, 0, 0⟩ true false
          4000).current_pour = none := by
  have h1 := wraparound_fail_safe ⟨some ⟨false, 5000, 5000⟩, false, 0, 0⟩
    ⟨false, 5000, 5000⟩ 10 rfl rfl
  have h2 := wraparound_fail_safe ⟨some ⟨false, 5000, 100⟩, false, 0, 0⟩
    ⟨false, 5000, 100⟩ 4000 rfl rfl
  exact ⟨(h1.1 false (by decide)).2,
    h2.2 rfl (by decide) (by decide) (by decide) (by decide)⟩

/-- C10 (implicit): creating an auto pour leaves the debounce counter
unchanged: with enabled true, lockout false, no active pour, manual released
and counter ≥ CONSECUTIVE, `update_state` creates an auto pour
(`manual = false`, `start = lockout_start = current_time`) while the counter
keeps its value — unlike manual pour creation, which resets it to 0 — and this
is what lets a later dry evaluation within the lockout window refresh the
hysteresis `start` while keeping `lockout_start`. -/
theorem auto_pour_keeps_count (s : State) (current_time t2 : Nat)
    (hp : s.current_pour = none) (hl : s.lockout = false)
    (hc : s.count ≥ CONSECUTIVE) :
    (update_state s true false current_time).current_pour
        = some ⟨false, current_time, current_time⟩ ∧
    (update_state s true false current_time).count = s.count ∧
    (update_state s true true current_time).count = 0 ∧
    (current_time ≤ t2 → t2 - current_time < LOCKOUT_TIME_MS →
      (update_state (update_state s true false current_time) true false
          t2).current_pour = some ⟨false, t2, current_time⟩) := by
  rcases s with ⟨cp, lk, ct, lr⟩
  simp only [State.current_pour] at hp
  subst hp
  simp only [State.lockout] at hl
  subst hl
  refine ⟨?_, ?_, ?_, ?_⟩
  · simp [update_state, hc]
  · simp [update_state, hc]
  · simp [update_state]
  · intro ht1 ht2
    simp [update_state, hc] <;> split_ifs <;> simp_all <;> omega

/-- Witness for C10: a saturated counter of 5 survives auto pour creation at
time 70, and the evaluation at time 80 refreshes `start` while keeping
`lockout_start = 70`. -/
theorem auto_pour_keeps_count_witness :
    (update_state ⟨none, false, 5, 800⟩ true false 70).count = 5 ∧
      (update_state (update_state ⟨none, false, 5, 800⟩ true false 70) true false
          80).current_pour = some ⟨false, 80, 70⟩ := by
  have h := auto_pour_keeps_count ⟨none, false, 5, 800⟩ 70 80 rfl rfl
    (by decide)
  exact ⟨h.2.1, h.2.2.2 (by decide) (by decide)⟩

end Brita
